import Mathlib

/-!
Verification development for the fints4 Home Assistant custom integration.

The Python sources (custom_components/fints4/{client,config_flow,sensor,const}.py)
are shallowly embedded below.  Python truthiness is modelled explicitly: an
empty string, an empty list, the integer 0 and `None` are falsy.  Calls into
the external FinTS library and the Home Assistant framework are modelled as
environment parameters describing their outcomes; exceptions raised by those
calls are modelled with explicit flags or `Except` values.
-/

namespace FinTS4

/-! ## client.py : data model -/

/-- Embedding of the `BankCredentials` namedtuple
(`namedtuple("BankCredentials", "blz login pin url product_id system_id")`).
All six fields; values may be Python `None` (modelled as `Option.none`). -/
structure BankCredentials where
  blz : Option String
  login : Option String
  pin : Option String
  url : Option String
  product_id : Option String
  system_id : Option String
deriving DecidableEq, Repr

/-- Construction of the namedtuple from positional arguments.  A namedtuple
declared without defaults requires exactly one argument per field; any other
arity raises `TypeError`, modelled as `none`. -/
def mkBankCredentials : List (Option String) → Option BankCredentials
  | [a, b, c, d, e, f] => some ⟨a, b, c, d, e, f⟩
  | _ => none

/-- The relevant configuration keys read by `sensor.setup_platform` and
`sensor.async_setup_entry` (CONF_BIN, CONF_USERNAME, CONF_PIN, CONF_URL are
required by the schema; CONF_PRODUCT_ID is optional, read with `.get`). -/
structure SensorConfig where
  bin : String
  username : String
  pin : String
  url : String
  productId : Option String
deriving DecidableEq, Repr

/-- The positional arguments `setup_platform` passes to `BankCredentials`
(sensor.py lines 74-80): five values, no `system_id`. -/
def setupPlatformArgs (config : SensorConfig) : List (Option String) :=
  [some config.bin, some config.username, some config.pin, some config.url,
   config.productId]

/-- The positional arguments `async_setup_entry` passes to `BankCredentials`
(sensor.py lines 148-154): five values, no `system_id`. -/
def asyncSetupEntryArgs (data : SensorConfig) : List (Option String) :=
  [some data.bin, some data.username, some data.pin, some data.url,
   data.productId]

/-! ## client.py : account classification -/

/-- One entry of the dict returned by `client.get_information()["accounts"]`,
restricted to the keys the wrapper reads: `"type"`, `"iban"`,
`"account_number"`.  `.get` of a missing key yields `None`. -/
structure AccountInfo where
  type : Option Int
  iban : Option String
  accountNumber : Option String
deriving DecidableEq, Repr

/-- Embedding of `fints.models.SEPAAccount`, restricted to the fields the
wrapper reads.  `iban = ""` models a falsy IBAN. -/
structure SEPAAccount where
  iban : String
  accountnumber : String
deriving DecidableEq, Repr

/-- Python membership test `account_information.get(key) in config_dict`
for an `Option`-valued lookup against the config's key set. -/
def optKeyMem (v : Option String) (cfgKeys : List String) : Bool :=
  match v with
  | some s => s ∈ cfgKeys
  | none => false

/-- Embedding of `FinTsClient.is_balance_account` (client.py lines 98-116).
`info` is the result of `get_account_information(account.iban)`, where `none`
covers both a missing and an empty (falsy) dict.  The walrus test
`if account_type := account_information.get("type"):` only takes the range
branch when the type value is truthy (present and nonzero). -/
def isBalanceAccount (accountConfigKeys : List String) (info : Option AccountInfo)
    (account : SEPAAccount) : Bool :=
  if account.iban = "" then false
  else
    match info with
    | none => false
    | some ai =>
      match ai.type with
      | some t =>
        if t ≠ 0 then decide (1 ≤ t ∧ t ≤ 9)
        else optKeyMem ai.iban accountConfigKeys
              || optKeyMem ai.accountNumber accountConfigKeys
      | none =>
        optKeyMem ai.iban accountConfigKeys
          || optKeyMem ai.accountNumber accountConfigKeys

/-- Embedding of `FinTsClient.is_holdings_account` (client.py lines 118-136),
identical to `isBalanceAccount` except for the range 30..39 and the holdings
config. -/
def isHoldingsAccount (holdingsConfigKeys : List String) (info : Option AccountInfo)
    (account : SEPAAccount) : Bool :=
  if account.iban = "" then false
  else
    match info with
    | none => false
    | some ai =>
      match ai.type with
      | some t =>
        if t ≠ 0 then decide (30 ≤ t ∧ t ≤ 39)
        else optKeyMem ai.iban holdingsConfigKeys
              || optKeyMem ai.accountNumber holdingsConfigKeys
      | none =>
        optKeyMem ai.iban holdingsConfigKeys
          || optKeyMem ai.accountNumber holdingsConfigKeys

/-- Embedding of `FinTsClient.detect_accounts` (client.py lines 138-155).
`infoOf` models the (cached, hence fixed) account-information lookup and
`accounts` the result of `get_sepa_accounts()`. -/
def detectAccounts (accountConfigKeys holdingsConfigKeys : List String)
    (infoOf : String → Option AccountInfo) :
    List SEPAAccount → List SEPAAccount × List SEPAAccount
  | [] => ([], [])
  | a :: rest =>
    let r := detectAccounts accountConfigKeys holdingsConfigKeys infoOf rest
    if isBalanceAccount accountConfigKeys (infoOf a.iban) a then
      (a :: r.1, r.2)
    else if isHoldingsAccount holdingsConfigKeys (infoOf a.iban) a then
      (r.1, a :: r.2)
    else
      r

/-! ## client.py : client caching -/

/-- Embedding of a constructed `FinTS3PinTanClient`: the constructor arguments
recorded together with an allocation identifier, so that object identity is
observable. -/
structure PinTanClient where
  blz : Option String
  login : Option String
  pin : Option String
  url : Option String
  productId : Option String
  systemId : Option String
  allocId : Nat
deriving DecidableEq, Repr

/-- The `FinTS3PinTanClient(...)` constructor call in the `client` property
(client.py lines 45-52). -/
def mkPinTanClient (credentials : BankCredentials) (allocId : Nat) : PinTanClient :=
  { blz := credentials.blz
    login := credentials.login
    pin := credentials.pin
    url := credentials.url
    productId := credentials.product_id
    systemId := credentials.system_id
    allocId := allocId }

/-- The mutable `_client` cache of `FinTsClient`. -/
structure FinTsClientCache where
  cachedClient : Option PinTanClient
deriving DecidableEq, Repr

/-- Embedding of the `FinTsClient.client` property (client.py lines 41-53):
construct on first read, cache, and return the cached object on later reads.
`allocId` is the identity a fresh construction would receive. -/
def clientProp (credentials : BankCredentials) (allocId : Nat)
    (s : FinTsClientCache) : PinTanClient × FinTsClientCache :=
  match s.cachedClient with
  | some c => (c, s)
  | none =>
    let c := mkPinTanClient credentials allocId
    (c, { cachedClient := some c })

/-! ## sensor.py : entity refresh -/

/-- A monetary amount as the FinTS library reports it (`balance.amount`):
an amount and a currency.  Amounts are modelled as rationals. -/
structure Money where
  amount : ℚ
  currency : String
deriving DecidableEq, Repr

/-- The balance object returned by `client.get_balance`. -/
structure Balance where
  amount : Money
deriving DecidableEq, Repr

/-- One holding returned by `client.get_holdings`, restricted to the fields
the sensor reads. -/
structure Holding where
  name : String
  total_value : ℚ
  pieces : ℚ
  market_value : ℚ
deriving DecidableEq, Repr

/-- The underlying library calls the sensor entities make on refresh. -/
structure Bank where
  getBalance : SEPAAccount → Balance
  getHoldings : SEPAAccount → List Holding

/-- Mutable state of a `FinTsAccount` (balance) entity that `update` touches. -/
structure BalanceEntity where
  account : SEPAAccount
  nativeValue : Option ℚ
  nativeUnitOfMeasurement : Option String
deriving DecidableEq, Repr

/-- Embedding of `FinTsAccount.update` (sensor.py lines 196-202). -/
def balanceEntityUpdate (bank : Bank) (e : BalanceEntity) : BalanceEntity :=
  let balance := bank.getBalance e.account
  { e with
    nativeValue := some balance.amount.amount
    nativeUnitOfMeasurement := some balance.amount.currency }

/-- Mutable state of a `FinTsHoldingsAccount` entity that `update` touches. -/
structure HoldingsEntity where
  account : SEPAAccount
  holdings : List Holding
  nativeValue : Option ℚ
deriving DecidableEq, Repr

/-- Embedding of `FinTsHoldingsAccount.update` (sensor.py lines 221-225). -/
def holdingsEntityUpdate (bank : Bank) (e : HoldingsEntity) : HoldingsEntity :=
  let hs := bank.getHoldings e.account
  { e with
    holdings := hs
    nativeValue := some ((hs.map Holding.total_value).sum) }

/-! ## config_flow.py : data model -/

/-- The user-entered form data (`user_input`): CONF_BIN, CONF_USERNAME,
CONF_PIN, CONF_URL required, CONF_NAME and CONF_PRODUCT_ID optional. -/
structure UserInput where
  bin : String
  username : String
  pin : String
  url : String
  name : Option String
  productId : Option String
deriving DecidableEq, Repr

/-- The config-entry title expression used by both `async_step_user` and
`async_step_tan_done`: `user_input.get(CONF_NAME) or user_input[CONF_BIN]`
(an entered empty name is falsy and falls back to the bank identification
number). -/
def entryTitle (ui : UserInput) : String :=
  match ui.name with
  | some n => if n = "" then ui.bin else n
  | none => ui.bin

/-- Embedding of `fints.client.NeedTANResponse`, restricted to what the flow
reads: the `decoupled` flag; `id` distinguishes challenge objects. -/
structure Challenge where
  id : Nat
  decoupled : Bool
deriving DecidableEq, Repr

/-- The mutable flow state of `FinTSConfigFlow`: `_pending_client` (truthiness
only), `_tan_request`, `_dialog_data` (an opaque token from `pause_dialog`),
`_user_input`, `_tan_error`, `_tan_sent`.  The `_tan_task` handle is outside
the embedded data. -/
structure FlowState where
  pendingClient : Bool
  tanRequest : Option Challenge
  dialogData : Option Nat
  userInput : Option UserInput
  tanError : Bool
  tanSent : Bool
deriving DecidableEq, Repr

/-- Dialog-level operations `_send_pending_tan` can perform on the FinTS
client, recorded as a trace.  `resumeDialog` is the library's
`resume_dialog(dialog_data)`; the constructor exists so that its absence
from a trace is expressible. -/
inductive DialogOp where
  | openNew
  | resumeDialog (dialogData : Nat)
  | getAccounts
  | sendTan (challengeId : Nat) (tan : String)
  | pauseDialog
deriving DecidableEq, Repr

/-- What `client.send_tan(...)` returns: another `NeedTANResponse`, or any
other (success) response. -/
inductive TanResponse where
  | needTAN (c : Challenge)
  | done
deriving DecidableEq, Repr

/-- What `client.get_sepa_accounts()` returns when it does not raise:
either a `NeedTANResponse` object or a list of accounts. -/
inductive AccountsValue where
  | needTAN (c : Challenge)
  | accountList (accounts : List SEPAAccount)
deriving DecidableEq, Repr

/-- Python truthiness of a `get_sepa_accounts` result: a `NeedTANResponse`
object is truthy; a list is truthy iff nonempty. -/
def AccountsValue.truthy : AccountsValue → Bool
  | .needTAN _ => true
  | .accountList accounts => !accounts.isEmpty

/-- Outcomes of the external calls made during one `_send_pending_tan`
attempt. -/
structure AttemptEnv where
  enterRaises : Bool
  accountsFetch : Except Unit AccountsValue
  sendTanRaises : Bool
  sendTanResponse : TanResponse
  pauseRaises : Bool
  pauseData : Nat
deriving Repr

/-! ## config_flow.py : _send_pending_tan -/

/-- Embedding of `FinTSConfigFlow._send_pending_tan` (config_flow.py lines
238-285).  Returns the updated flow state, the boolean result, and the trace
of dialog operations performed on the client.  Mirrors the source:
guard on missing client/challenge; `with client:` opens the client context
(never resuming any stored dialog data); the decoupled branch marks the TAN
as sent; when sent, a successful truthy `get_sepa_accounts` short-circuits to
`True`; otherwise `send_tan(request, "")` is submitted, and a
`NeedTANResponse` answer replaces the stored challenge, pauses the dialog
again and yields `False`; any uncaught exception sets `_tan_error` and
yields `False`. -/
def sendPendingTan (env : AttemptEnv) (s : FlowState) : FlowState × Bool × List DialogOp :=
  if !s.pendingClient || s.tanRequest.isNone then
    (s, false, [])
  else
    match s.tanRequest with
    | none => (s, false, [])
    | some req =>
      if env.enterRaises then
        ({ s with tanError := true }, false, [])
      else
        let s1 := if req.decoupled && !s.tanSent then { s with tanSent := true } else s
        let accTrace : List DialogOp := if s1.tanSent then [DialogOp.getAccounts] else []
        let accSuccess : Bool :=
          s1.tanSent &&
            (match env.accountsFetch with
             | .ok v => v.truthy
             | .error _ => false)
        if accSuccess then
          (s1, true, DialogOp.openNew :: accTrace)
        else if env.sendTanRaises then
          ({ s1 with tanError := true }, false,
           DialogOp.openNew :: accTrace ++ [DialogOp.sendTan req.id ""])
        else
          match env.sendTanResponse with
          | .needTAN c =>
            if env.pauseRaises then
              ({ s1 with tanRequest := some c, tanError := true }, false,
               DialogOp.openNew :: accTrace ++ [DialogOp.sendTan req.id ""])
            else
              ({ s1 with tanRequest := some c, dialogData := some env.pauseData }, false,
               DialogOp.openNew :: accTrace ++
                 [DialogOp.sendTan req.id "", DialogOp.pauseDialog])
          | .done =>
            (s1, true, DialogOp.openNew :: accTrace ++ [DialogOp.sendTan req.id ""])

/-! ## config_flow.py : _wait_for_tan -/

/-- The signal `_wait_for_tan` reports to the flow via
`flow.async_configure`: completion (empty `user_input`) after a successful
attempt with 0-based index `attempt`, or a timeout (`{"error": "timeout"}`). -/
inductive TanOutcome where
  | completed (attempt : Nat)
  | timeout
deriving DecidableEq, Repr

/-- Recursive core of `_wait_for_tan`: starting at attempt index `i` with
`fuel` iterations left, sleeps 10 seconds, runs `_send_pending_tan`, and
either finishes or recurses.  Returns the final flow state, the reported
outcome, the number of attempts made, and the total seconds slept. -/
def waitForTanAux (envs : Nat → AttemptEnv) : FlowState → Nat → Nat →
    FlowState × TanOutcome × Nat × Nat
  | s, _, 0 => ({ s with tanError := true }, TanOutcome.timeout, 0, 0)
  | s, i, fuel + 1 =>
    let r := sendPendingTan (envs i) s
    if r.2.1 then
      (r.1, TanOutcome.completed i, 1, 10)
    else
      let rest := waitForTanAux envs r.1 (i + 1) fuel
      (rest.1, rest.2.1, rest.2.2.1 + 1, rest.2.2.2 + 10)

/-- Embedding of `FinTSConfigFlow._wait_for_tan` (config_flow.py lines
221-236): `for _ in range(6): await asyncio.sleep(10); ...`, then on
exhaustion `self._tan_error = True` and a timeout report. -/
def waitForTan (envs : Nat → AttemptEnv) (s : FlowState) :
    FlowState × TanOutcome × Nat × Nat :=
  waitForTanAux envs s 0 6

/-- The flow state right before attempt `i` of the polling loop (attempt 0
sees the initial state). -/
def tanStates (envs : Nat → AttemptEnv) (s : FlowState) : Nat → FlowState
  | 0 => s
  | i + 1 => (sendPendingTan (envs i) (tanStates envs s i)).1

/-- The boolean result of attempt `i` of the polling loop. -/
def attemptSuccess (envs : Nat → AttemptEnv) (s : FlowState) (i : Nat) : Bool :=
  (sendPendingTan (envs i) (tanStates envs s i)).2.1

/-! ## config_flow.py : _handle_tan_challenge -/

/-- Embedding of `FinTSConfigFlow._handle_tan_challenge` (config_flow.py lines
177-194): stores the pending client, the challenge, the dialog data (falling
back to a direct — UNGUARDED — `client.client.pause_dialog()` call when the
caller passed `None`), the user input, clears the task handle and resets the
error/sent flags.  `fallbackPause` is the outcome of that direct
`pause_dialog()` call; when it raises, the exception escapes the method after
only `_pending_client` and `_tan_request` have been mutated (the assignments
run in source order), modelled as `Except.error` carrying the partially
updated state. -/
def handleTanChallenge (ui : UserInput) (challenge : Challenge)
    (dialogData : Option Nat) (fallbackPause : Except Unit Nat) (s : FlowState) :
    Except FlowState FlowState :=
  let s1 := { s with pendingClient := true, tanRequest := some challenge }
  match dialogData with
  | some d =>
    Except.ok { s1 with
      dialogData := some d
      userInput := some ui
      tanError := false
      tanSent := false }
  | none =>
    match fallbackPause with
    | .ok d =>
      Except.ok { s1 with
        dialogData := some d
        userInput := some ui
        tanError := false
        tanSent := false }
    | .error _ => Except.error s1

/-! ## config_flow.py : async_step_user -/

/-- Outcome of the executor job `check_tan_and_get_accounts` together with the
exception path of `async_step_user`:
`raises` models an exception from the job (the flow inspects whether the
type name or message mentions `NeedTANResponse` and, via `getattr`, whether
the error object carries a truthy `response` or `tan_request` attribute);
`tanDetected` models a `NeedTANResponse`-valued `init_tan_response`, for
which the job already paused the dialog and returned `("tan", dialog_data)`;
`accountsFetched` models the `("accounts", ...)` result. -/
inductive ProbeOutcome where
  | raises (mentionsNeedTAN : Bool) (responseAttr : Option Challenge)
      (tanRequestAttr : Option Challenge)
  | tanDetected (challenge : Challenge) (pausedData : Nat)
  | accountsFetched (value : AccountsValue)
deriving Repr

/-- Outcomes of the external calls made during `async_step_user`.
`pauseResult` is the guarded pause attempt (its exception is caught, yielding
`dialog_data = None`); `fallbackPauseResult` is the unguarded
`pause_dialog()` call inside `_handle_tan_challenge`, whose exception
escapes. -/
structure UserStepEnv where
  probe : ProbeOutcome
  pauseResult : Except Unit Nat
  fallbackPauseResult : Except Unit Nat
  alreadyConfigured : Bool
deriving Repr

/-- The `FlowResult` values `async_step_user` can produce, plus
`uncaughtException` for the path where the unguarded fallback
`pause_dialog()` raises and the exception escapes the step (no `FlowResult`
is returned). -/
inductive UserStepResult where
  | showFormEmpty
  | showFormErrors (base : String)
  | waitForTanStep
  | abortAlreadyConfigured
  | entryCreated (title : String) (data : UserInput)
  | uncaughtException
deriving DecidableEq, Repr

/-- Embedding of `FinTSConfigFlow.async_step_user` (config_flow.py lines
61-175).  On an exception mentioning `NeedTANResponse` whose object carries a
truthy `response` or `tan_request` attribute, and on a `NeedTANResponse`
`init_tan_response` or `get_sepa_accounts` value, it pauses the dialog
(`pauseResult`, exceptions caught to `None`), stores the TAN state via
`handleTanChallenge`, and moves to the `wait_for_tan` step.  A truthy account
list creates the entry (unless the unique id is already configured); an empty
list reports `cannot_connect`; anything else reports `unknown`. -/
def asyncStepUser (env : UserStepEnv) (s : FlowState) (userInput : Option UserInput) :
    FlowState × UserStepResult :=
  match userInput with
  | none => (s, UserStepResult.showFormEmpty)
  | some ui =>
    match env.probe with
    | .raises mentionsNeedTAN responseAttr tanRequestAttr =>
      if mentionsNeedTAN then
        match responseAttr.or tanRequestAttr with
        | some challenge =>
          let dialogData : Option Nat :=
            match env.pauseResult with
            | .ok d => some d
            | .error _ => none
          match handleTanChallenge ui challenge dialogData env.fallbackPauseResult s with
          | .ok s2 => (s2, UserStepResult.waitForTanStep)
          | .error s2 => (s2, UserStepResult.uncaughtException)
        | none =>
          ({ s with userInput := some ui }, UserStepResult.showFormErrors "unknown")
      else
        ({ s with userInput := some ui }, UserStepResult.showFormErrors "unknown")
    | .tanDetected challenge pausedData =>
      match handleTanChallenge ui challenge (some pausedData) env.fallbackPauseResult s with
      | .ok s2 => (s2, UserStepResult.waitForTanStep)
      | .error s2 => (s2, UserStepResult.uncaughtException)
    | .accountsFetched (.needTAN challenge) =>
      let dialogData : Option Nat :=
        match env.pauseResult with
        | .ok d => some d
        | .error _ => none
      match handleTanChallenge ui challenge dialogData env.fallbackPauseResult s with
      | .ok s2 => (s2, UserStepResult.waitForTanStep)
      | .error s2 => (s2, UserStepResult.uncaughtException)
    | .accountsFetched (.accountList accounts) =>
      if !accounts.isEmpty then
        if env.alreadyConfigured then
          (s, UserStepResult.abortAlreadyConfigured)
        else
          (s, UserStepResult.entryCreated (entryTitle ui) ui)
      else
        ({ s with userInput := some ui }, UserStepResult.showFormErrors "cannot_connect")

/-! ## config_flow.py : async_step_tan_done -/

/-- Outcomes of the external calls made during `async_step_tan_done`:
whether the unique id is already configured, and the
`getattr(client, "system_id", None)` value of the pending client. -/
structure TanDoneEnv where
  alreadyConfigured : Bool
  clientSystemId : Option String
deriving DecidableEq, Repr

/-- The `FlowResult` values `async_step_tan_done` can produce.  The entry
data is the stored user input together with the optional `"system_id"` key
added to the persisted dict. -/
inductive TanDoneResult where
  | assertFailure
  | abortAlreadyConfigured
  | entryCreated (title : String) (data : UserInput) (systemId : Option String)
deriving DecidableEq, Repr

/-- Python truthiness of the `system_id` value: truthy iff present and a
nonempty string. -/
def truthyStr : Option String → Bool
  | some str => str ≠ ""
  | none => false

/-- Embedding of `FinTSConfigFlow.async_step_tan_done` (config_flow.py lines
287-310): asserts `_user_input` is set, aborts when the unique id
`f"{bin}-{username}"` is already configured, reads `system_id` from the
pending client when there is one, adds it to the entry data when truthy, and
creates the entry titled with the entered name or the bank identification
number. -/
def asyncStepTanDone (env : TanDoneEnv) (s : FlowState) : TanDoneResult :=
  match s.userInput with
  | none => TanDoneResult.assertFailure
  | some ui =>
    if env.alreadyConfigured then
      TanDoneResult.abortAlreadyConfigured
    else
      let sysId : Option String := if s.pendingClient then env.clientSystemId else none
      let storedSysId : Option String := if truthyStr sysId then sysId else none
      TanDoneResult.entryCreated (entryTitle ui) ui storedSysId

/-! ## Spec-worded predicates and sample values -/

/-- The account-classification criterion as the spec sentence words it (for
comparison against the code's `isBalanceAccount`/`isHoldingsAccount`): the
reported type code lies in the range `lo..hi`, or the iban or account number
is a key of the explicit config. -/
def claimedCriterion (lo hi : Int) (cfgKeys : List String) (ai : AccountInfo) : Bool :=
  (match ai.type with
   | some t => decide (lo ≤ t ∧ t ≤ hi)
   | none => false)
  || optKeyMem ai.iban cfgKeys || optKeyMem ai.accountNumber cfgKeys

/-- Whether one `_send_pending_tan` attempt takes the decoupled
short-circuit: the TAN counts as sent (already marked sent, or the challenge
is decoupled so this attempt marks it) and `get_sepa_accounts()` returns a
truthy value without raising. -/
def decoupledShortCircuit (env : AttemptEnv) (s : FlowState) (req : Challenge) : Bool :=
  (s.tanSent || req.decoupled) &&
    (match env.accountsFetch with
     | .ok v => v.truthy
     | .error _ => false)

/-- The initial flow state: the class-attribute defaults of
`FinTSConfigFlow` (config_flow.py lines 53-59). -/
def initFlowState : FlowState :=
  ⟨false, none, none, none, false, false⟩

/-- A sample filled-in user form. -/
def uiSample : UserInput :=
  ⟨"10010010", "user1", "1234", "https://fints.example/ep", some "Main", some "prod-1"⟩

/-! # Theorems -/

/-- C2: both sensor setup entry points pass five positional arguments to the
six-field `BankCredentials` namedtuple, so for EVERY configuration the
construction fails (raises `TypeError`, modelled as `none`) — refuting the
claim that the record is successfully constructed. -/
theorem sensor_setup_credentials_construction_fails (config entryData : SensorConfig) :
    mkBankCredentials (setupPlatformArgs config) = none ∧
    mkBankCredentials (asyncSetupEntryArgs entryData) = none :=
  ⟨rfl, rfl⟩

/-- C7: each sensor refresh calls the corresponding library accessor: a
balance entity's `update` sets the native value to the amount and the unit to
the currency of `get_balance`; a holdings entity's `update` sets the native
value to the sum of the total values of `get_holdings`. -/
theorem sensor_update_uses_library_accessors (bank : Bank) (be : BalanceEntity)
    (he : HoldingsEntity) :
    (balanceEntityUpdate bank be).nativeValue =
        some (bank.getBalance be.account).amount.amount ∧
    (balanceEntityUpdate bank be).nativeUnitOfMeasurement =
        some (bank.getBalance be.account).amount.currency ∧
    (holdingsEntityUpdate bank he).nativeValue =
        some (((bank.getHoldings he.account).map Holding.total_value).sum) ∧
    (holdingsEntityUpdate bank he).holdings = bank.getHoldings he.account :=
  ⟨rfl, rfl, rfl, rfl⟩

/-- C8: the `client` property caches: the first read on an empty cache
constructs a `FinTS3PinTanClient` from the stored credentials, and a second
read returns the identical cached object and an unchanged cache — no matter
what allocation identity a fresh construction would have received. -/
theorem clientProp_caches (credentials : BankCredentials) (n m : Nat) :
    (clientProp credentials n ⟨none⟩).1 = mkPinTanClient credentials n ∧
    (clientProp credentials m (clientProp credentials n ⟨none⟩).2).1 =
      (clientProp credentials n ⟨none⟩).1 ∧
    (clientProp credentials m (clientProp credentials n ⟨none⟩).2).2 =
      (clientProp credentials n ⟨none⟩).2 :=
  ⟨rfl, rfl, rfl⟩

/-- C4 counterexample: an account whose reported type code is 15 and whose
IBAN is a key of the explicit account config satisfies the claim's
disjunction (type in 1..9 OR key in config, here via the config key), yet
`is_balance_account` returns `False`: a truthy type code short-circuits the
config check. -/
theorem isBalanceAccount_config_ignored_counterexample :
    claimedCriterion 1 9 ["DE1"] ⟨some 15, some "DE1", some "1"⟩ = true ∧
    isBalanceAccount ["DE1"] (some ⟨some 15, some "DE1", some "1"⟩) ⟨"DE1", "1"⟩ = false := by
  constructor
  · rfl
  · rfl

/-- C4 (amended): for every account with a non-empty IBAN and retrievable
account information, `is_balance_account` is true exactly when the reported
type code is present, nonzero and in 1..9, or when the type code is absent or
zero and the iban or account number is a key of the account config; likewise
`is_holdings_account` with the range 30..39 and the holdings config. -/
theorem account_classification_amended (aCfg hCfg : List String) (ai : AccountInfo)
    (account : SEPAAccount) (hiban : account.iban ≠ "") :
    (isBalanceAccount aCfg (some ai) account = true ↔
      (∃ t, ai.type = some t ∧ t ≠ 0 ∧ 1 ≤ t ∧ t ≤ 9) ∨
      ((ai.type = none ∨ ai.type = some 0) ∧
        (optKeyMem ai.iban aCfg || optKeyMem ai.accountNumber aCfg) = true)) ∧
    (isHoldingsAccount hCfg (some ai) account = true ↔
      (∃ t, ai.type = some t ∧ t ≠ 0 ∧ 30 ≤ t ∧ t ≤ 39) ∨
      ((ai.type = none ∨ ai.type = some 0) ∧
        (optKeyMem ai.iban hCfg || optKeyMem ai.accountNumber hCfg) = true)) := by
  constructor
  · rw [isBalanceAccount, if_neg hiban]
    rcases htype : ai.type with _ | t
    · simp [htype]
    · by_cases hz : t = 0
      · subst hz
        simp [htype]
      · simp only [htype, if_pos hz, decide_eq_true_eq]
        constructor
        · intro hrange
          exact Or.inl ⟨t, rfl, hz, hrange.1, hrange.2⟩
        · rintro (⟨u, hu, _, h1, h2⟩ | ⟨htn, _⟩)
          · cases Option.some.inj hu
            exact ⟨h1, h2⟩
          · rcases htn with h | h
            · exact Option.noConfusion h
            · exact absurd (Option.some.inj h) hz
  · rw [isHoldingsAccount, if_neg hiban]
    rcases htype : ai.type with _ | t
    · simp [htype]
    · by_cases hz : t = 0
      · subst hz
        simp [htype]
      · simp only [htype, if_pos hz, decide_eq_true_eq]
        constructor
        · intro hrange
          exact Or.inl ⟨t, rfl, hz, hrange.1, hrange.2⟩
        · rintro (⟨u, hu, _, h1, h2⟩ | ⟨htn, _⟩)
          · cases Option.some.inj hu
            exact ⟨h1, h2⟩
          · rcases htn with h | h
            · exact Option.noConfusion h
            · exact absurd (Option.some.inj h) hz

/-- C4 witness: the amended classification at a concrete input — type code 5
is classified as a balance account. -/
theorem account_classification_amended_witness :
    isBalanceAccount [] (some ⟨some 5, some "DE2", some "2"⟩) ⟨"DE2", "2"⟩ = true :=
  ((account_classification_amended [] [] ⟨some 5, some "DE2", some "2"⟩ ⟨"DE2", "2"⟩
      (by decide)).1).mpr
    (Or.inl ⟨5, rfl, by decide, by decide, by decide⟩)

/-- Membership in the balance list of `detect_accounts` implies the balance
classification holds. -/
theorem detectAccounts_mem_fst (aCfg hCfg : List String)
    (infoOf : String → Option AccountInfo) :
    ∀ (accounts : List SEPAAccount) (a : SEPAAccount),
      a ∈ (detectAccounts aCfg hCfg infoOf accounts).1 →
      isBalanceAccount aCfg (infoOf a.iban) a = true := by
  intro accounts
  induction accounts with
  | nil =>
    intro a h
    simp [detectAccounts] at h
  | cons b rest ih =>
    intro a h
    cases hb : isBalanceAccount aCfg (infoOf b.iban) b with
    | true =>
      simp only [detectAccounts, hb, if_true] at h
      rcases List.mem_cons.mp h with h1 | h1
      · subst h1
        exact hb
      · exact ih a h1
    | false =>
      cases hh : isHoldingsAccount hCfg (infoOf b.iban) b with
      | true =>
        simp only [detectAccounts, hb, hh] at h
        exact ih a h
      | false =>
        simp only [detectAccounts, hb, hh] at h
        exact ih a h

/-- Membership in the holdings list of `detect_accounts` implies the balance
classification fails and the holdings classification holds. -/
theorem detectAccounts_mem_snd (aCfg hCfg : List String)
    (infoOf : String → Option AccountInfo) :
    ∀ (accounts : List SEPAAccount) (a : SEPAAccount),
      a ∈ (detectAccounts aCfg hCfg infoOf accounts).2 →
      isBalanceAccount aCfg (infoOf a.iban) a = false ∧
      isHoldingsAccount hCfg (infoOf a.iban) a = true := by
  intro accounts
  induction accounts with
  | nil =>
    intro a h
    simp [detectAccounts] at h
  | cons b rest ih =>
    intro a h
    cases hb : isBalanceAccount aCfg (infoOf b.iban) b with
    | true =>
      simp only [detectAccounts, hb, if_true] at h
      exact ih a h
    | false =>
      cases hh : isHoldingsAccount hCfg (infoOf b.iban) b with
      | true =>
        simp only [detectAccounts, hb, hh] at h
        rcases List.mem_cons.mp h with h1 | h1
        · subst h1
          exact ⟨hb, hh⟩
        · exact ih a h1
      | false =>
        simp only [detectAccounts, hb, hh] at h
        exact ih a h

/-- C10: `detect_accounts` partitions the reported accounts — no account is
in both returned lists, an account classified both as balance and as holdings
goes only to the balance list, and an unclassified account goes to neither. -/
theorem detectAccounts_partition (aCfg hCfg : List String)
    (infoOf : String → Option AccountInfo) (accounts : List SEPAAccount)
    (a : SEPAAccount) :
    ¬(a ∈ (detectAccounts aCfg hCfg infoOf accounts).1 ∧
      a ∈ (detectAccounts aCfg hCfg infoOf accounts).2) ∧
    (isBalanceAccount aCfg (infoOf a.iban) a = true →
      a ∉ (detectAccounts aCfg hCfg infoOf accounts).2) ∧
    (isBalanceAccount aCfg (infoOf a.iban) a = false →
      isHoldingsAccount hCfg (infoOf a.iban) a = false →
      a ∉ (detectAccounts aCfg hCfg infoOf accounts).1 ∧
      a ∉ (detectAccounts aCfg hCfg infoOf accounts).2) := by
  refine ⟨?_, ?_, ?_⟩
  · rintro ⟨h1, h2⟩
    have hb := detectAccounts_mem_fst aCfg hCfg infoOf accounts a h1
    have hnb := (detectAccounts_mem_snd aCfg hCfg infoOf accounts a h2).1
    rw [hb] at hnb
    simp at hnb
  · intro hb h2
    have hnb := (detectAccounts_mem_snd aCfg hCfg infoOf accounts a h2).1
    rw [hb] at hnb
    simp at hnb
  · intro hb hh
    constructor
    · intro h1
      have := detectAccounts_mem_fst aCfg hCfg infoOf accounts a h1
      rw [hb] at this
      simp at this
    · intro h2
      have := (detectAccounts_mem_snd aCfg hCfg infoOf accounts a h2).2
      rw [hh] at this
      simp at this

/-- C10 witness: the partition theorem at a concrete detection run — an
account that classifies as both balance (type absent, key in the account
config) and holdings (key in the holdings config) is not placed in the
holdings list. -/
theorem detectAccounts_partition_witness :
    ⟨"DE3", "3"⟩ ∉ (detectAccounts ["DE3"] ["DE3"]
      (fun _ => some ⟨none, some "DE3", some "3"⟩) [⟨"DE3", "3"⟩]).2 :=
  (detectAccounts_partition ["DE3"] ["DE3"]
      (fun _ => some ⟨none, some "DE3", some "3"⟩) [⟨"DE3", "3"⟩] ⟨"DE3", "3"⟩).2.1
    (by decide)

/-- One unfolding step of the polling loop core, phrased through `tanStates`
and `attemptSuccess`. -/
theorem waitForTanAux_succ (envs : Nat → AttemptEnv) (s : FlowState) (i fuel : Nat) :
    waitForTanAux envs (tanStates envs s i) i (fuel + 1) =
      if attemptSuccess envs s i then
        (tanStates envs s (i + 1), TanOutcome.completed i, 1, 10)
      else
        ((waitForTanAux envs (tanStates envs s (i + 1)) (i + 1) fuel).1,
         (waitForTanAux envs (tanStates envs s (i + 1)) (i + 1) fuel).2.1,
         (waitForTanAux envs (tanStates envs s (i + 1)) (i + 1) fuel).2.2.1 + 1,
         (waitForTanAux envs (tanStates envs s (i + 1)) (i + 1) fuel).2.2.2 + 10) := by
  rw [waitForTanAux]
  rfl

/-- Behaviour of the polling loop core starting at attempt `i` with `fuel`
iterations left: either some attempt among the next `fuel` succeeds (the
earliest one ends the loop), or all of them fail and the loop times out with
the error flag set. -/
theorem waitForTanAux_spec (envs : Nat → AttemptEnv) (s : FlowState) :
    ∀ (fuel i : Nat),
      (∃ k, k < fuel ∧ attemptSuccess envs s (i + k) = true ∧
        (∀ j, j < k → attemptSuccess envs s (i + j) = false) ∧
        waitForTanAux envs (tanStates envs s i) i fuel =
          (tanStates envs s (i + k + 1), TanOutcome.completed (i + k), k + 1,
           10 * (k + 1))) ∨
      ((∀ j, j < fuel → attemptSuccess envs s (i + j) = false) ∧
        waitForTanAux envs (tanStates envs s i) i fuel =
          ({ tanStates envs s (i + fuel) with tanError := true }, TanOutcome.timeout,
           fuel, 10 * fuel)) := by
  intro fuel
  induction fuel with
  | zero =>
    intro i
    right
    refine ⟨fun j hj => absurd hj (Nat.not_lt_zero j), ?_⟩
    simp [waitForTanAux]
  | succ fuel ih =>
    intro i
    cases hs : attemptSuccess envs s i with
    | true =>
      left
      refine ⟨0, Nat.succ_pos fuel, by simpa using hs,
        fun j hj => absurd hj (Nat.not_lt_zero j), ?_⟩
      rw [waitForTanAux_succ, if_pos hs]
      norm_num
    | false =>
      have hstep : waitForTanAux envs (tanStates envs s i) i (fuel + 1) =
          ((waitForTanAux envs (tanStates envs s (i + 1)) (i + 1) fuel).1,
           (waitForTanAux envs (tanStates envs s (i + 1)) (i + 1) fuel).2.1,
           (waitForTanAux envs (tanStates envs s (i + 1)) (i + 1) fuel).2.2.1 + 1,
           (waitForTanAux envs (tanStates envs s (i + 1)) (i + 1) fuel).2.2.2 + 10) := by
        rw [waitForTanAux_succ, if_neg]
        simp [hs]
      rcases ih (i + 1) with ⟨k, hk, hsucc, hfail, heq⟩ | ⟨hfail, heq⟩
      · left
        refine ⟨k + 1, Nat.succ_lt_succ hk, ?_, ?_, ?_⟩
        · have harith : i + (k + 1) = (i + 1) + k := by omega
          rw [harith]
          exact hsucc
        · intro j hj
          cases j with
          | zero => simpa using hs
          | succ j' =>
            have hj' : j' < k := by omega
            have harith : i + (j' + 1) = (i + 1) + j' := by omega
            rw [harith]
            exact hfail j' hj'
        · rw [hstep, heq]
          have h1 : i + 1 + k + 1 = i + (k + 1) + 1 := by omega
          have h2 : i + 1 + k = i + (k + 1) := by omega
          simp only [h1, h2]
          norm_num
          omega
      · right
        refine ⟨?_, ?_⟩
        · intro j hj
          cases j with
          | zero => simpa using hs
          | succ j' =>
            have hj' : j' < fuel := by omega
            have harith : i + (j' + 1) = (i + 1) + j' := by omega
            rw [harith]
            exact hfail j' hj'
        · rw [hstep, heq]
          have h1 : i + 1 + fuel = i + (fuel + 1) := by omega
          simp only [h1]
          norm_num
          omega

/-- C3: the pushTAN wait task is a fixed-count sleep-and-retry loop that
always terminates: it makes at most 6 attempts, sleeps exactly 10 seconds
before each attempt it makes, returns with a completion report as soon as the
first successful attempt occurs, and otherwise — after the 6th failed
attempt — sets the TAN error flag and reports a timeout; no other outcome is
possible. -/
theorem waitForTan_fixed_retry_loop (envs : Nat → AttemptEnv) (s : FlowState) :
    (waitForTan envs s).2.2.1 ≤ 6 ∧
    (waitForTan envs s).2.2.2 = 10 * (waitForTan envs s).2.2.1 ∧
    ((∃ k, k < 6 ∧ attemptSuccess envs s k = true ∧
        (∀ j, j < k → attemptSuccess envs s j = false) ∧
        (waitForTan envs s).2.1 = TanOutcome.completed k ∧
        (waitForTan envs s).2.2.1 = k + 1) ∨
      ((∀ j, j < 6 → attemptSuccess envs s j = false) ∧
        (waitForTan envs s).2.1 = TanOutcome.timeout ∧
        (waitForTan envs s).1.tanError = true ∧
        (waitForTan envs s).2.2.1 = 6)) := by
  have hbase : waitForTan envs s = waitForTanAux envs (tanStates envs s 0) 0 6 := rfl
  rcases waitForTanAux_spec envs s 6 0 with ⟨k, hk, hsucc, hfail, heq⟩ | ⟨hfail, heq⟩
  · have heq2 : waitForTan envs s =
        (tanStates envs s (k + 1), TanOutcome.completed k, k + 1, 10 * (k + 1)) := by
      rw [hbase, heq]
      simp
    have hatt : (waitForTan envs s).2.2.1 = k + 1 := by rw [heq2]
    have hsleep : (waitForTan envs s).2.2.2 = 10 * (k + 1) := by rw [heq2]
    have hout : (waitForTan envs s).2.1 = TanOutcome.completed k := by rw [heq2]
    refine ⟨by omega, by rw [hsleep, hatt], Or.inl ⟨k, hk, ?_, ?_, hout, hatt⟩⟩
    · simpa using hsucc
    · intro j hj
      simpa using hfail j hj
  · have heq2 : waitForTan envs s =
        ({ tanStates envs s 6 with tanError := true }, TanOutcome.timeout, 6, 60) := by
      rw [hbase, heq]
    have hatt : (waitForTan envs s).2.2.1 = 6 := by rw [heq2]
    have hsleep : (waitForTan envs s).2.2.2 = 60 := by rw [heq2]
    have hout : (waitForTan envs s).2.1 = TanOutcome.timeout := by rw [heq2]
    have herr : (waitForTan envs s).1.tanError = true := by rw [heq2]
    refine ⟨by omega, by rw [hsleep, hatt], Or.inr ⟨?_, hout, herr, hatt⟩⟩
    intro j hj
    simpa using hfail j hj

/-- C3 witness: the loop spec at a concrete run in which every attempt fails
(no pending client), reporting the timeout after 6 attempts. -/
theorem waitForTan_fixed_retry_loop_witness :
    (waitForTan (fun _ => ⟨false, Except.error (), false, TanResponse.done, false, 0⟩)
      initFlowState).2.2.1 ≤ 6 :=
  (waitForTan_fixed_retry_loop
    (fun _ => ⟨false, Except.error (), false, TanResponse.done, false, 0⟩)
    initFlowState).1

/-- C1: `_send_pending_tan` NEVER resumes a paused dialog — no trace of any
attempt, in any state (in particular whenever `_dialog_data` holds stored
paused-dialog data), contains a `resume_dialog` operation; whenever the
attempt reaches the bank at all it opens a fresh client dialog context
instead.  The stored `_dialog_data` is written but never read. -/
theorem sendPendingTan_never_resumes_dialog (env : AttemptEnv) (s : FlowState) :
    (∀ d, DialogOp.resumeDialog d ∉ (sendPendingTan env s).2.2) ∧
    (s.pendingClient = true → s.tanRequest.isSome = true → env.enterRaises = false →
      DialogOp.openNew ∈ (sendPendingTan env s).2.2) := by
  constructor
  · intro d h
    simp only [sendPendingTan] at h
    repeat' split at h
    all_goals simp at h
  · intro hp hreq henter
    rcases hr : s.tanRequest with _ | req
    · rw [hr] at hreq
      simp at hreq
    · simp only [sendPendingTan, hp, hr, henter]
      norm_num
      repeat' split
      all_goals simp

/-- C1 witness: a concrete attempt with stored dialog data still opens a
fresh dialog context. -/
theorem sendPendingTan_never_resumes_dialog_witness :
    DialogOp.openNew ∈ (sendPendingTan
      ⟨false, Except.error (), false, TanResponse.done, false, 0⟩
      ⟨true, some ⟨7, false⟩, some 3, none, false, false⟩).2.2 :=
  (sendPendingTan_never_resumes_dialog
      ⟨false, Except.error (), false, TanResponse.done, false, 0⟩
      ⟨true, some ⟨7, false⟩, some 3, none, false, false⟩).2 rfl rfl rfl

/-- C5 counterexample: an attempt for an already-sent decoupled challenge
whose account fetch succeeds returns `True` WITHOUT resubmitting any TAN —
its dialog trace is exactly `[openNew, getAccounts]`, with no `send_tan`
call, refuting "on every interval _send_pending_tan resubmits an empty TAN
string". -/
theorem sendPendingTan_no_resubmit_counterexample :
    (sendPendingTan
        ⟨false, Except.ok (AccountsValue.accountList [⟨"DE9", "9"⟩]), false,
          TanResponse.done, false, 0⟩
        ⟨true, some ⟨7, true⟩, some 3, none, false, true⟩).2.1 = true ∧
    (sendPendingTan
        ⟨false, Except.ok (AccountsValue.accountList [⟨"DE9", "9"⟩]), false,
          TanResponse.done, false, 0⟩
        ⟨true, some ⟨7, true⟩, some 3, none, false, true⟩).2.2 =
      [DialogOp.openNew, DialogOp.getAccounts] :=
  ⟨rfl, rfl⟩

/-- C5 (amended): an attempt that does not take the decoupled short-circuit
and raises no exception resubmits the empty TAN for the stored challenge,
and its result tracks the bank's answer: a `NeedTANResponse` answer yields
`False` after the stored challenge is replaced and the dialog paused again;
any other answer yields `True`. -/
theorem sendPendingTan_resubmit_amended (env : AttemptEnv) (s : FlowState) (req : Challenge)
    (hclient : s.pendingClient = true) (hreq : s.tanRequest = some req)
    (henter : env.enterRaises = false) (hsc : decoupledShortCircuit env s req = false)
    (hsend : env.sendTanRaises = false) (hpause : env.pauseRaises = false) :
    DialogOp.sendTan req.id "" ∈ (sendPendingTan env s).2.2 ∧
    (∀ c, env.sendTanResponse = TanResponse.needTAN c →
      (sendPendingTan env s).2.1 = false ∧
      (sendPendingTan env s).1.tanRequest = some c ∧
      (sendPendingTan env s).1.dialogData = some env.pauseData ∧
      DialogOp.pauseDialog ∈ (sendPendingTan env s).2.2) ∧
    (env.sendTanResponse = TanResponse.done → (sendPendingTan env s).2.1 = true) := by
  rcases s with ⟨pc, treq, dd, ui, te, ts⟩
  rcases env with ⟨er, af, sr, resp, pr, pd⟩
  simp only at hclient hreq henter hsend hpause
  subst hclient
  subst hreq
  subst henter
  subst hsend
  subst hpause
  simp only [decoupledShortCircuit] at hsc
  rcases req with ⟨rid, rdec⟩
  rcases resp with c0 | _ <;> cases rdec <;> cases ts <;>
    simp_all [sendPendingTan]

/-- C5 witness: the amended attempt behaviour at a concrete input — the bank
answers with a fresh challenge, the attempt stores it and reports `False`. -/
theorem sendPendingTan_resubmit_amended_witness :
    (sendPendingTan ⟨false, Except.error (), false, TanResponse.needTAN ⟨2, false⟩, false, 42⟩
      ⟨true, some ⟨1, false⟩, none, none, false, false⟩).1.tanRequest = some ⟨2, false⟩ :=
  (((sendPendingTan_resubmit_amended
      ⟨false, Except.error (), false, TanResponse.needTAN ⟨2, false⟩, false, 42⟩
      ⟨true, some ⟨1, false⟩, none, none, false, false⟩ ⟨1, false⟩
      rfl rfl rfl rfl rfl rfl).2.1 ⟨2, false⟩ rfl).2).1

/-- C6 counterexample: when the unique id `bin-username` is already
configured, `async_step_tan_done` aborts and creates no config entry —
refuting "the tan_done step always creates a config entry". -/
theorem tanDone_abort_counterexample :
    asyncStepTanDone ⟨true, some "SYSX"⟩ ⟨true, none, none, some uiSample, false, false⟩ =
      TanDoneResult.abortAlreadyConfigured :=
  rfl

/-- C6 (amended): unless the unique id is already configured (abort), the
tan_done step creates a config entry whose data is exactly the stored user
input, extended with the client's `system_id` when the pending client
exposes a nonempty one, titled with the entered name or the bank
identification number. -/
theorem tanDone_creates_entry_amended (env : TanDoneEnv) (s : FlowState) (ui : UserInput)
    (hui : s.userInput = some ui) (hcfg : env.alreadyConfigured = false) :
    asyncStepTanDone env s = TanDoneResult.entryCreated (entryTitle ui) ui
      (if s.pendingClient && truthyStr env.clientSystemId then env.clientSystemId
       else none) := by
  simp only [asyncStepTanDone, hui, hcfg]
  cases hp : s.pendingClient
  · simp [truthyStr]
  · simp

/-- C6 witness: concrete success — the entry is created with the entered
name as title and the nonempty system id persisted. -/
theorem tanDone_creates_entry_amended_witness :
    asyncStepTanDone ⟨false, some "SYS"⟩ ⟨true, none, none, some uiSample, false, false⟩ =
      TanDoneResult.entryCreated "Main" uiSample (some "SYS") :=
  (tanDone_creates_entry_amended ⟨false, some "SYS"⟩
      ⟨true, none, none, some uiSample, false, false⟩ uiSample rfl rfl).trans rfl

/-- C9 counterexample: the probe raises an error that is a `NeedTANResponse`
(name mentions it) but carries no truthy `response` or `tan_request`
attribute — the user step then re-shows the form with an "unknown" error
instead of transitioning to the wait_for_tan step. -/
theorem stepUser_raise_without_challenge_counterexample :
    (asyncStepUser ⟨ProbeOutcome.raises true none none, Except.ok 5, Except.ok 9, false⟩
        initFlowState (some uiSample)).2 = UserStepResult.showFormErrors "unknown" :=
  rfl

/-- C9 (amended): whenever the TAN requirement surfaces with an extractable
challenge — `init_tan_response` is a `NeedTANResponse`, the probe raises an
error mentioning `NeedTANResponse` that carries a `response` or
`tan_request` attribute, or the probe returns a `NeedTANResponse` — and the
paused-dialog data can be stored (the guarded pause attempt succeeded, or
otherwise the unguarded fallback `pause_dialog()` call inside
`_handle_tan_challenge` does not raise), the user step does not create a
config entry: it stores the pending client, the challenge, paused-dialog
data and the user input, resets the sent/error flags, and moves to the
wait_for_tan step. -/
theorem stepUser_tan_transition_amended (env : UserStepEnv) (s : FlowState)
    (ui : UserInput) (challenge : Challenge)
    (htrigger :
      (∃ ra ta, env.probe = ProbeOutcome.raises true ra ta ∧ ra.or ta = some challenge) ∨
      (∃ dd, env.probe = ProbeOutcome.tanDetected challenge dd) ∨
      env.probe = ProbeOutcome.accountsFetched (AccountsValue.needTAN challenge))
    (hpause : ∀ u : Unit, env.pauseResult = Except.error u →
      ∃ d, env.fallbackPauseResult = Except.ok d) :
    (asyncStepUser env s (some ui)).2 = UserStepResult.waitForTanStep ∧
    (asyncStepUser env s (some ui)).1.pendingClient = true ∧
    (asyncStepUser env s (some ui)).1.tanRequest = some challenge ∧
    (asyncStepUser env s (some ui)).1.dialogData.isSome = true ∧
    (asyncStepUser env s (some ui)).1.userInput = some ui ∧
    (asyncStepUser env s (some ui)).1.tanError = false ∧
    (asyncStepUser env s (some ui)).1.tanSent = false := by
  rcases htrigger with ⟨ra, ta, hp, hor⟩ | ⟨dd, hp⟩ | hp
  · cases hpr : env.pauseResult with
    | error u =>
      obtain ⟨d, hfb⟩ := hpause u hpr
      simp [asyncStepUser, hp, hor, hpr, hfb, handleTanChallenge]
    | ok d =>
      simp [asyncStepUser, hp, hor, hpr, handleTanChallenge]
  · simp [asyncStepUser, hp, handleTanChallenge]
  · cases hpr : env.pauseResult with
    | error u =>
      obtain ⟨d, hfb⟩ := hpause u hpr
      simp [asyncStepUser, hp, hpr, hfb, handleTanChallenge]
    | ok d =>
      simp [asyncStepUser, hp, hpr, handleTanChallenge]

/-- C9 witness: a concrete `NeedTANResponse`-valued `init_tan_response`
moves the flow to the wait_for_tan step. -/
theorem stepUser_tan_transition_amended_witness :
    (asyncStepUser ⟨ProbeOutcome.tanDetected ⟨2, true⟩ 11, Except.ok 5, Except.ok 9, false⟩
        initFlowState (some uiSample)).2 = UserStepResult.waitForTanStep :=
  (stepUser_tan_transition_amended
      ⟨ProbeOutcome.tanDetected ⟨2, true⟩ 11, Except.ok 5, Except.ok 9, false⟩
      initFlowState uiSample ⟨2, true⟩ (Or.inr (Or.inl ⟨11, rfl⟩))
      (fun _ h => nomatch h)).1

end FinTS4
